import Mathlib

/-!
Shallow embedding of `src/sample-app/src/app.py`, a small Flask application
with four GET routes, a security-header post-processing hook, 404/500 error
handlers, and a `__main__` entry point.  Requests are modelled explicitly
(method, path, query, body); the current time string is passed in as the
value `datetime.utcnow().isoformat()` would produce at handling time, and
the process environment is a record of the three variables the program
reads.  Logging side effects are returned alongside the response.
-/

namespace SampleApp

/-- JSON values, as produced by Flask's `jsonify`. -/
inductive Json where
  | str : String → Json
  | int : Int → Json
  | arr : List Json → Json
  | obj : List (String × Json) → Json

/-- A response body: a JSON document, a plain HTML page (the framework's
default error pages), or empty (HEAD / automatic OPTIONS responses). -/
inductive Body where
  | json : Json → Body
  | html : String → Body
  | empty : Body

/-- An HTTP response: status code, headers (ordered association list),
and body. -/
structure Response where
  status : Nat
  headers : List (String × String)
  body : Body

/-- Log severities used by the program (`logger.info`, `logger.error`). -/
inductive LogLevel where
  | info : LogLevel
  | error : LogLevel
deriving Repr, DecidableEq

/-- One emitted log line. -/
structure LogEntry where
  level : LogLevel
  msg : String
deriving Repr, DecidableEq

/-- The process environment: the three variables the program reads
(`APP_VERSION`, `ENVIRONMENT`, `PORT`); `none` means unset. -/
structure Env where
  app_version : Option String
  environment : Option String
  port : Option String
deriving Repr, DecidableEq

/-- An inbound HTTP request.  The handlers never read `query` or `body`;
they are carried to state that fact as a theorem rather than by fiat. -/
structure Request where
  method : String
  path : String
  query : String
  body : String
deriving Repr, DecidableEq

/-- Remove every header with the given name. -/
def removeHeader : List (String × String) → String → List (String × String)
  | [], _ => []
  | (k', v') :: rest, k =>
      if k' = k then removeHeader rest k
      else (k', v') :: removeHeader rest k

/-- `response.headers[k] = v` on a Werkzeug `Headers` object: replaces any
existing values for `k` with the single new value, else appends. -/
def setHeader : List (String × String) → String → String → List (String × String)
  | [], k, v => [(k, v)]
  | (k', v') :: rest, k, v =>
      if k' = k then (k, v) :: removeHeader rest k
      else (k', v') :: setHeader rest k v

/-- Look up the (first) value of a header. -/
def getHeader : List (String × String) → String → Option String
  | [], _ => none
  | (k', v') :: rest, k => if k' = k then some v' else getHeader rest k

/-- `add_security_headers` (`@app.after_request`, app.py lines 21-27):
unconditionally sets the four security headers on the response,
overwriting any prior value for the same name. -/
def add_security_headers (r : Response) : Response :=
  { r with headers :=
      (setHeader (setHeader (setHeader (setHeader r.headers
        "X-Content-Type-Options" "nosniff")
        "X-Frame-Options" "DENY")
        "X-XSS-Protection" "1; mode=block")
        "Strict-Transport-Security" "max-age=31536000; includeSubDomains") }

/-- `health_check` (GET /health, app.py lines 29-36). -/
def health_check (env : Env) (now : String) : Response :=
  { status := 200
    headers := []
    body := .json (.obj [
      ("status", .str "healthy"),
      ("timestamp", .str now),
      ("version", .str (env.app_version.getD "1.0.0"))]) }

/-- `readiness_check` (GET /ready, app.py lines 38-45). -/
def readiness_check (now : String) : Response :=
  { status := 200
    headers := []
    body := .json (.obj [
      ("status", .str "ready"),
      ("timestamp", .str now)]) }

/-- `index` (GET /, app.py lines 47-54). -/
def index (env : Env) : Response :=
  { status := 200
    headers := []
    body := .json (.obj [
      ("message", .str "Secure CI/CD Pipeline Demo"),
      ("version", .str (env.app_version.getD "1.0.0")),
      ("environment", .str (env.environment.getD "development"))]) }

/-- `get_data` (GET /api/data, app.py lines 56-68); also emits the
informational log line `Data endpoint accessed`. -/
def get_data (now : String) : Response × List LogEntry :=
  ({ status := 200
     headers := []
     body := .json (.obj [
       ("data", .arr [
         .obj [("id", .int 1), ("name", .str "Item 1")],
         .obj [("id", .int 2), ("name", .str "Item 2")],
         .obj [("id", .int 3), ("name", .str "Item 3")]]),
       ("timestamp", .str now)]) },
   [⟨.info, "Data endpoint accessed"⟩])

/-- `not_found` (`@app.errorhandler(404)`, app.py lines 70-76). -/
def not_found : Response :=
  { status := 404
    headers := []
    body := .json (.obj [("error", .str "Not found"), ("status", .int 404)]) }

/-- `internal_error` (`@app.errorhandler(500)`, app.py lines 78-85):
logs `Internal error: {error}` at error severity and returns the fixed
generic body. -/
def internal_error (errDesc : String) : Response × List LogEntry :=
  ({ status := 500
     headers := []
     body := .json (.obj [("error", .str "Internal server error"),
                          ("status", .int 500)]) },
   [⟨.error, "Internal error: " ++ errDesc⟩])

/-- The four registered route paths (each declared with methods=['GET']). -/
def routePaths : List String := ["/health", "/ready", "/", "/api/data"]

/-- Methods Flask actually accepts on a route declared with
methods=['GET']: the framework auto-adds HEAD and OPTIONS. -/
def allowedMethods : List String := ["GET", "HEAD", "OPTIONS"]

/-- The `Allow` header value Werkzeug reports for these routes. -/
def allowHeaderValue : String := "GET, HEAD, OPTIONS"

/-- Werkzeug's default 405 error page body (no 405 handler is registered
in app.py, so the framework's default HTML response is sent). -/
def methodNotAllowedHtml : String :=
  "<!doctype html>\n<html lang=en>\n<title>405 Method Not Allowed</title>\n<h1>Method Not Allowed</h1>\n<p>The method is not allowed for the requested URL.</p>\n"

/-- The framework's 405 response for a known path with a disallowed
method (Werkzeug default, since app.py registers no 405 handler). -/
def method_not_allowed : Response :=
  { status := 405
    headers := [("Allow", allowHeaderValue)]
    body := .html methodNotAllowedHtml }

/-- The view function registered for a given defined path. -/
def routeHandler (env : Env) (now : String) (path : String) :
    Response × List LogEntry :=
  if path = "/health" then (health_check env now, [])
  else if path = "/ready" then (readiness_check now, [])
  else if path = "/" then (index env, [])
  else get_data now

/-- Flask request dispatch over the registered URL map: an unknown path
invokes the registered 404 handler; a known path runs the GET view for
GET, runs the view and discards the body for HEAD, is answered by the
framework with an empty 200 for OPTIONS, and yields the default 405
response for any other method. -/
def dispatch (env : Env) (now : String) (req : Request) :
    Response × List LogEntry :=
  if req.path ∈ routePaths then
    if req.method = "GET" then routeHandler env now req.path
    else if req.method = "HEAD" then
      let (r, logs) := routeHandler env now req.path
      ({ r with body := .empty }, logs)
    else if req.method = "OPTIONS" then
      ({ status := 200, headers := [("Allow", allowHeaderValue)],
         body := .empty }, [])
    else (method_not_allowed, [])
  else (not_found, [])

/-- Full request processing: either the dispatched handler completes, or
an unhandled fault with description `desc` occurs and Flask invokes the
registered 500 handler; either way the `after_request` hook
`add_security_headers` runs on the outgoing response. -/
def processRequest (env : Env) (now : String) (req : Request)
    (fault : Option String) : Response × List LogEntry :=
  match fault with
  | some desc =>
      (add_security_headers (internal_error desc).1, (internal_error desc).2)
  | none =>
      (add_security_headers (dispatch env now req).1, (dispatch env now req).2)

/-- Digit run with single underscores allowed between digits, as Python's
`int()` accepts after the optional sign. -/
def pyDigits : List Char → Bool
  | [] => false
  | [c] => c.isDigit
  | c :: c' :: rest =>
      c.isDigit &&
        (if c' = '_' then pyDigits rest else pyDigits (c' :: rest))

/-- Numeric value of a digit run, skipping underscores. -/
def pyDigitsVal (cs : List Char) : Nat :=
  cs.foldl (fun a c => if c.isDigit then a * 10 + (c.toNat - 48) else a) 0

/-- Python's `int(s)` on a string: strips surrounding whitespace, allows
an optional sign, then requires a non-empty decimal digit run (single
underscores permitted between digits); returns `none` where Python
raises `ValueError`. -/
def pyInt (s : String) : Option Int :=
  let cs := ((s.data.dropWhile Char.isWhitespace).reverse.dropWhile
    Char.isWhitespace).reverse
  match cs with
  | '+' :: rest => if pyDigits rest then some (pyDigitsVal rest) else none
  | '-' :: rest => if pyDigits rest then some (-(pyDigitsVal rest : Int)) else none
  | rest => if pyDigits rest then some (pyDigitsVal rest) else none

/-- The configuration `app.run` is called with when startup succeeds. -/
structure ServerConfig where
  host : String
  port : Int
  debug : Bool
deriving Repr, DecidableEq

/-- The `if __name__ == '__main__'` block (app.py lines 87-93):
`port = int(os.getenv('PORT', 8080))` then
`app.run(host='0.0.0.0', port=port, debug=False)`.  When `PORT` is unset
`os.getenv` returns the integer default 8080 and `int(8080) = 8080`;
when `PORT` is set to a string `int()` may raise, modelled as `none`
(the server does not start). -/
def mainEntry (env : Env) : Option ServerConfig :=
  match env.port with
  | none => some { host := "0.0.0.0", port := 8080, debug := false }
  | some s =>
      (pyInt s).map fun n => { host := "0.0.0.0", port := n, debug := false }

/-- Field lookup in a JSON object. -/
def jsonField : Json → String → Option Json
  | .obj kvs, k => (kvs.find? fun p => p.1 = k).map Prod.snd
  | _, _ => none

/-- Field lookup in a response's JSON body. -/
def bodyField (r : Response) (k : String) : Option Json :=
  match r.body with
  | .json j => jsonField j k
  | _ => none

/-- The four security-header values the `after_request` hook installs,
read back from a response. -/
def hasSecurityHeaders (r : Response) : Prop :=
  getHeader r.headers "X-Content-Type-Options" = some "nosniff" ∧
  getHeader r.headers "X-Frame-Options" = some "DENY" ∧
  getHeader r.headers "X-XSS-Protection" = some "1; mode=block" ∧
  getHeader r.headers "Strict-Transport-Security" =
    some "max-age=31536000; includeSubDomains"

theorem getHeader_removeHeader_ne (hs : List (String × String)) (k k' : String)
    (h : k' ≠ k) : getHeader (removeHeader hs k) k' = getHeader hs k' := by
  induction hs with
  | nil => rfl
  | cons p rest ih =>
    obtain ⟨k0, v0⟩ := p
    by_cases hk : k0 = k
    · subst hk
      have hne : ¬ k0 = k' := fun hh => h (hh.symm)
      simp [removeHeader, getHeader, hne, ih]
    · by_cases hk' : k0 = k'
      · simp [removeHeader, getHeader, hk, hk', h]
      · simp [removeHeader, getHeader, hk, hk', ih]

theorem getHeader_setHeader_self (hs : List (String × String)) (k v : String) :
    getHeader (setHeader hs k v) k = some v := by
  induction hs with
  | nil => simp [setHeader, getHeader]
  | cons p rest ih =>
    obtain ⟨k0, v0⟩ := p
    by_cases hk : k0 = k
    · simp [setHeader, hk, getHeader]
    · simp [setHeader, hk, getHeader, ih]

theorem getHeader_setHeader_ne (hs : List (String × String)) (k v k' : String)
    (h : k' ≠ k) : getHeader (setHeader hs k v) k' = getHeader hs k' := by
  have hkk' : ¬ k = k' := fun hh => h hh.symm
  induction hs with
  | nil => simp [setHeader, getHeader, hkk']
  | cons p rest ih =>
    obtain ⟨k0, v0⟩ := p
    by_cases hk : k0 = k
    · subst hk
      simp [setHeader, getHeader, hkk', getHeader_removeHeader_ne rest k0 k' h]
    · by_cases hk' : k0 = k'
      · simp [setHeader, getHeader, hk, hk', h]
      · simp [setHeader, getHeader, hk, hk', ih]

theorem add_security_headers_sets (r : Response) :
    hasSecurityHeaders (add_security_headers r) := by
  unfold hasSecurityHeaders add_security_headers
  refine ⟨?_, ?_, ?_, ?_⟩
  · rw [getHeader_setHeader_ne _ _ _ _ (by decide),
      getHeader_setHeader_ne _ _ _ _ (by decide),
      getHeader_setHeader_ne _ _ _ _ (by decide),
      getHeader_setHeader_self]
  · rw [getHeader_setHeader_ne _ _ _ _ (by decide),
      getHeader_setHeader_ne _ _ _ _ (by decide),
      getHeader_setHeader_self]
  · rw [getHeader_setHeader_ne _ _ _ _ (by decide),
      getHeader_setHeader_self]
  · rw [getHeader_setHeader_self]

/-- C1: every outgoing response — whichever handler produced it, the 404
and 500 error responses included — carries the four security header
values, overwriting any prior value for the same header name (the second
conjunct runs the hook on an arbitrary response with arbitrary prior
headers). -/
theorem security_headers_on_every_response (env : Env) (now : String)
    (req : Request) (fault : Option String) (r : Response) :
    hasSecurityHeaders (processRequest env now req fault).1 ∧
    hasSecurityHeaders (add_security_headers r) := by
  constructor
  · cases fault with
    | some desc => exact add_security_headers_sets _
    | none => exact add_security_headers_sets _
  · exact add_security_headers_sets r

/-- C2 counterexample: the claim asserts that a defined path with a
non-GET method (e.g. POST /health) yields status 404, but Flask answers
a known path whose method is not allowed with 405 Method Not Allowed. -/
theorem post_health_not_404 :
    (processRequest ⟨none, none, none⟩ "2024-01-01T00:00:00"
      ⟨"POST", "/health", "", ""⟩ none).1.status ≠ 404 := by
  decide

/-- C2 (amended): a request whose path matches none of the four defined
paths yields status 404 with JSON body {error: "Not found", status: 404}
and no log output, for every method; a request to a defined path whose
method is outside the accepted set (GET plus the automatic HEAD and
OPTIONS the framework adds) yields 405 Method Not Allowed, not 404. -/
theorem unmatched_route_handling (env : Env) (now : String) (req : Request) :
    (req.path ∉ routePaths →
      (processRequest env now req none).1.status = 404 ∧
      (processRequest env now req none).1.body =
        .json (.obj [("error", .str "Not found"), ("status", .int 404)]) ∧
      (processRequest env now req none).2 = []) ∧
    (req.path ∈ routePaths → req.method ∉ allowedMethods →
      (processRequest env now req none).1.status = 405) := by
  constructor
  · intro h
    simp [processRequest, dispatch, h, not_found, add_security_headers]
  · intro h1 h2
    simp only [allowedMethods, List.mem_cons, List.not_mem_nil, or_false,
      not_or] at h2
    simp [processRequest, dispatch, h1, h2.1, h2.2.1, h2.2.2,
      method_not_allowed, add_security_headers]

theorem unmatched_route_handling_witness :
    ((processRequest ⟨none, none, none⟩ "t" ⟨"GET", "/nope", "", ""⟩
        none).1.status = 404 ∧
      (processRequest ⟨none, none, none⟩ "t" ⟨"GET", "/nope", "", ""⟩
        none).1.body =
        .json (.obj [("error", .str "Not found"), ("status", .int 404)]) ∧
      (processRequest ⟨none, none, none⟩ "t" ⟨"GET", "/nope", "", ""⟩
        none).2 = []) ∧
    (processRequest ⟨none, none, none⟩ "t" ⟨"PUT", "/health", "", ""⟩
        none).1.status = 405 :=
  ⟨(unmatched_route_handling ⟨none, none, none⟩ "t"
      ⟨"GET", "/nope", "", ""⟩).1 (by decide),
   (unmatched_route_handling ⟨none, none, none⟩ "t"
      ⟨"PUT", "/health", "", ""⟩).2 (by decide) (by decide)⟩

/-- C3: GET /health yields status 200 and a JSON body with exactly the
fields status = "healthy", timestamp = the current-time string produced
at request-handling time, and version = the APP_VERSION environment
variable or "1.0.0" when it is unset. -/
theorem health_endpoint_response (env : Env) (now q b : String) :
    (processRequest env now ⟨"GET", "/health", q, b⟩ none).1.status = 200 ∧
    (processRequest env now ⟨"GET", "/health", q, b⟩ none).1.body =
      .json (.obj [
        ("status", .str "healthy"),
        ("timestamp", .str now),
        ("version", .str (match env.app_version with
          | some v => v
          | none => "1.0.0"))]) := by
  obtain ⟨av, ev, pv⟩ := env
  cases av <;> exact ⟨rfl, rfl⟩

/-- C4: GET /api/data yields status 200 and a JSON body whose data field
is the ordered three fixed items (ids 1, 2, 3 with names "Item 1",
"Item 2", "Item 3") plus the current-time string; the handler emits
exactly the informational log line "Data endpoint accessed", and the
response itself does not depend on the log side effect. -/
theorem data_endpoint_response (env : Env) (now q b : String) :
    (processRequest env now ⟨"GET", "/api/data", q, b⟩ none).1.status = 200 ∧
    (processRequest env now ⟨"GET", "/api/data", q, b⟩ none).1.body =
      .json (.obj [
        ("data", .arr [
          .obj [("id", .int 1), ("name", .str "Item 1")],
          .obj [("id", .int 2), ("name", .str "Item 2")],
          .obj [("id", .int 3), ("name", .str "Item 3")]]),
        ("timestamp", .str now)]) ∧
    (processRequest env now ⟨"GET", "/api/data", q, b⟩ none).2 =
      [⟨.info, "Data endpoint accessed"⟩] :=
  ⟨rfl, rfl, rfl⟩

/-- C5: an unhandled fault during request processing yields status 500
with JSON body exactly {error: "Internal server error", status: 500};
the fault's description is logged at error severity, and the response is
the same whatever the description is, so no part of it reaches the
body. -/
theorem internal_fault_response (env : Env) (now : String) (req : Request)
    (desc : String) :
    (processRequest env now req (some desc)).1.status = 500 ∧
    (processRequest env now req (some desc)).1.body =
      .json (.obj [("error", .str "Internal server error"),
        ("status", .int 500)]) ∧
    (processRequest env now req (some desc)).2 =
      [⟨.error, "Internal error: " ++ desc⟩] ∧
    (processRequest env now req (some desc)).1 =
      (processRequest env now req (some "")).1 :=
  ⟨rfl, rfl, rfl, rfl⟩

/-- C6: GET / yields status 200 and a JSON body with exactly the fields
message = the fixed string, version = APP_VERSION or "1.0.0" when unset,
and environment = ENVIRONMENT or "development" when unset. -/
theorem index_endpoint_response (env : Env) (now q b : String) :
    (processRequest env now ⟨"GET", "/", q, b⟩ none).1.status = 200 ∧
    (processRequest env now ⟨"GET", "/", q, b⟩ none).1.body =
      .json (.obj [
        ("message", .str "Secure CI/CD Pipeline Demo"),
        ("version", .str (match env.app_version with
          | some v => v
          | none => "1.0.0")),
        ("environment", .str (match env.environment with
          | some e => e
          | none => "development"))]) := by
  obtain ⟨av, ev, pv⟩ := env
  cases av <;> cases ev <;> exact ⟨rfl, rfl⟩

/-- C7: when APP_VERSION is set to v, both the GET /health body and the
GET / body report version = v; and for every environment, set or not,
the two endpoints report the same version value. -/
theorem version_reporting_consistent (env : Env)
    (now1 now2 q1 b1 q2 b2 v : String) (h : env.app_version = some v) :
    bodyField (processRequest env now1 ⟨"GET", "/health", q1, b1⟩ none).1
      "version" = some (.str v) ∧
    bodyField (processRequest env now2 ⟨"GET", "/", q2, b2⟩ none).1
      "version" = some (.str v) ∧
    ∀ e : Env,
      bodyField (processRequest e now1 ⟨"GET", "/health", q1, b1⟩ none).1
        "version" =
      bodyField (processRequest e now2 ⟨"GET", "/", q2, b2⟩ none).1
        "version" := by
  obtain ⟨av, ev, pv⟩ := env
  cases av with
  | none => exact absurd h (by simp)
  | some v' =>
    obtain rfl : v' = v := by simpa using h
    refine ⟨rfl, rfl, ?_⟩
    intro e
    obtain ⟨av', ev', pv'⟩ := e
    cases av' <;> rfl

theorem version_reporting_consistent_witness :
    bodyField (processRequest ⟨some "2.3.1", none, none⟩ "t1"
      ⟨"GET", "/health", "", ""⟩ none).1 "version" = some (.str "2.3.1") ∧
    bodyField (processRequest ⟨some "2.3.1", none, none⟩ "t2"
      ⟨"GET", "/", "", ""⟩ none).1 "version" = some (.str "2.3.1") :=
  ⟨(version_reporting_consistent ⟨some "2.3.1", none, none⟩
      "t1" "t2" "" "" "" "" "2.3.1" rfl).1,
   (version_reporting_consistent ⟨some "2.3.1", none, none⟩
      "t1" "t2" "" "" "" "" "2.3.1" rfl).2.1⟩

/-- C8: handlers are pure functions of the current time and the
environment: two requests to the same route (same path and method) at
the same observed time in the same environment get identical responses
and log output, independent of request body, query string, or any other
request content. -/
theorem handlers_ignore_request_content (env : Env) (now : String)
    (r1 r2 : Request) (hp : r1.path = r2.path) (hm : r1.method = r2.method) :
    processRequest env now r1 none = processRequest env now r2 none := by
  have hd : dispatch env now r1 = dispatch env now r2 := by
    unfold dispatch
    rw [hp, hm]
  simp [processRequest, hd]

theorem handlers_ignore_request_content_witness :
    processRequest ⟨none, none, none⟩ "t"
      ⟨"GET", "/api/data", "a=1", "body-one"⟩ none =
    processRequest ⟨none, none, none⟩ "t"
      ⟨"GET", "/api/data", "b=2", "body-two"⟩ none :=
  handlers_ignore_request_content ⟨none, none, none⟩ "t"
    ⟨"GET", "/api/data", "a=1", "body-one"⟩
    ⟨"GET", "/api/data", "b=2", "body-two"⟩ rfl rfl

/-- C9: at process entry the server reads the port from PORT (default
8080 when unset) and, whenever it starts, binds host 0.0.0.0 (all
interfaces) with debug disabled, for every environment configuration. -/
theorem startup_configuration (env : Env) (c : ServerConfig) :
    (env.port = none →
      mainEntry env = some ⟨"0.0.0.0", 8080, false⟩) ∧
    (mainEntry env = some c → c.host = "0.0.0.0" ∧ c.debug = false) := by
  constructor
  · intro h
    simp [mainEntry, h]
  · intro h
    obtain ⟨av, ev, pv⟩ := env
    cases pv with
    | none =>
      obtain rfl : c = ⟨"0.0.0.0", 8080, false⟩ := by
        simpa [mainEntry] using h.symm
      exact ⟨rfl, rfl⟩
    | some s =>
      cases hp : pyInt s with
      | none => simp [mainEntry, hp] at h
      | some n =>
        obtain rfl : c = ⟨"0.0.0.0", n, false⟩ := by
          simpa [mainEntry, hp] using h.symm
        exact ⟨rfl, rfl⟩

theorem startup_configuration_witness :
    mainEntry ⟨none, none, none⟩ = some ⟨"0.0.0.0", 8080, false⟩ ∧
    ((⟨"0.0.0.0", 8080, false⟩ : ServerConfig).host = "0.0.0.0" ∧
      (⟨"0.0.0.0", 8080, false⟩ : ServerConfig).debug = false) :=
  ⟨(startup_configuration ⟨none, none, none⟩
      ⟨"0.0.0.0", 8080, false⟩).1 rfl,
   (startup_configuration ⟨none, none, none⟩
      ⟨"0.0.0.0", 8080, false⟩).2 rfl⟩

/-- C10: the 8080 default applies only when PORT is unset; when PORT is
set to a string on which int() fails, startup raises and the server does
not start (no fallback to 8080), and when int() succeeds the server
starts on the parsed value. -/
theorem port_parse_failure_no_start (env : Env) (s : String) (n : Int) :
    (env.port = some s → pyInt s = none → mainEntry env = none) ∧
    (env.port = some s → pyInt s = some n →
      mainEntry env = some ⟨"0.0.0.0", n, false⟩) := by
  constructor
  · intro h hp
    simp [mainEntry, h, hp]
  · intro h hp
    simp [mainEntry, h, hp]

theorem port_parse_failure_no_start_witness :
    mainEntry ⟨none, none, some "abc"⟩ = none ∧
    mainEntry ⟨none, none, some "9090"⟩ = some ⟨"0.0.0.0", 9090, false⟩ :=
  ⟨(port_parse_failure_no_start ⟨none, none, some "abc"⟩ "abc" 0).1
      rfl (by decide),
   (port_parse_failure_no_start ⟨none, none, some "9090"⟩ "9090" 9090).2
      rfl (by decide)⟩

end SampleApp
